import Mathlib

/-!
# Verification of the `excel-calculations` transaction-analyzer pipeline

Shallow embedding of `src/calculate.py`: a Streamlit dashboard that loads
transaction rows from a spreadsheet, drops rows with null required fields,
derives calendar fields, filters by year / account codes / months, and
produces summary metrics, a pivot table (with a year-wide "Total" column),
monthly totals, and account totals.

Modelling conventions:
* A dataframe is a `List` of rows; pandas boolean-mask filtering is
  `List.filter`.
* `Base Amount` is modelled as an exact integer: no claim under scrutiny
  depends on floating-point rounding, only on which rows are summed and how
  results are grouped and ordered.
* pandas `mean` of an empty series is `NaN` (rendered as the "no data"
  sentinel); this is embedded as `Option` with `none` for the empty case.
* pandas `pivot_table` / `groupby` sort their group keys ascending; this is
  embedded via `List.insertionSort` over deduplicated keys.
* `pivot['Total'] = total_pivot` aligns on the row index; a row label absent
  from `total_pivot` would receive a missing value, embedded as `Option Int`.
-/

namespace ExcelCalc

/-- Three-letter month abbreviations produced by `strftime('%b')`,
indexed by zero-based month. -/
def monthAbbrs : List String :=
  ["Jan", "Feb", "Mar", "Apr", "May", "Jun",
   "Jul", "Aug", "Sep", "Oct", "Nov", "Dec"]

/-- A calendar date, reduced to the fields the script derives from
`Transaction Date`: a year and a month (zero-based, so `dt.month` is
`month.val + 1`). -/
structure Date where
  year : Int
  month : Fin 12
  deriving DecidableEq, Repr

/-- The label `strftime('%b')` gives to a month. -/
def monthAbbr (m : Fin 12) : String :=
  monthAbbrs.getD m.val ""

/-- A cleaned transaction row: the three required columns, with the
non-null invariant enforced by the types (rows failing it are dropped by
`dropna` before this type is reached). -/
structure Record where
  transactionDate : Date
  accountCode : String
  baseAmount : Int
  deriving DecidableEq, Repr

/-- Derived column `Year` (`dt.year`). -/
def Record.year (r : Record) : Int := r.transactionDate.year

/-- Derived column `Month` (`dt.strftime('%b')`). -/
def Record.monthLabel (r : Record) : String := monthAbbr r.transactionDate.month

/-- Derived column `Month_Num` (`dt.month`, 1–12). -/
def Record.monthNum (r : Record) : Nat := r.transactionDate.month.val + 1

/-- One-based month number of a month label (inverse of `monthAbbr`);
labels that are not month abbreviations give 0. -/
def labelNum (l : String) : Nat :=
  if l ∈ monthAbbrs then monthAbbrs.indexOf l + 1 else 0

/-- A raw spreadsheet row before cleaning: each required column may be null. -/
structure RawRow where
  transactionDate : Option Date
  accountCode : Option String
  baseAmount : Option Int
  deriving DecidableEq, Repr

/-- Whether a raw row has all three required fields non-null
(the `dropna(subset=[...])` criterion). -/
def raw_complete (rr : RawRow) : Bool :=
  rr.transactionDate.isSome && rr.accountCode.isSome && rr.baseAmount.isSome

/-- Embedding of `df.dropna(subset=['Transaction Date', 'Account Code',
'Base Amount'])`: keep exactly the rows with all three required fields
present. -/
def dropna (raw : List RawRow) : List RawRow :=
  raw.filter raw_complete

/-- Conversion of a complete raw row to a cleaned record; `none` on a row
with a null required field. -/
def mk_record (rr : RawRow) : Option Record :=
  match rr.transactionDate, rr.accountCode, rr.baseAmount with
  | some d, some c, some a => some ⟨d, c, a⟩
  | _, _, _ => none

/-- The Loader: `pd.read_excel` followed by `dropna` and derivation of the
calendar columns (the derived columns are functions of the date, so they
live on `Record` as `year` / `monthLabel` / `monthNum`). -/
def load (raw : List RawRow) : List Record :=
  (dropna raw).filterMap mk_record

/-- Embedding of `df_year = df[df['Year'] == selected_year]`. -/
def df_year (df : List Record) (selected_year : Int) : List Record :=
  df.filter (fun r => r.year == selected_year)

/-- Embedding of `filtered_df = df_year[(df_year['Account Code']
.isin(selected_codes)) & (df_year['Month'].isin(selected_months))]`. -/
def filtered_df (df : List Record) (selected_year : Int)
    (selected_codes selected_months : List String) : List Record :=
  (df_year df selected_year).filter
    (fun r => selected_codes.contains r.accountCode
      && selected_months.contains r.monthLabel)

/-- Sum of the `Base Amount` column of a list of rows. -/
def sumAmounts (rs : List Record) : Int :=
  (rs.map Record.baseAmount).sum

/-- First KPI, `len(filtered_df)`. -/
def kpi_count (sub : List Record) : Nat := sub.length

/-- Second KPI, `filtered_df['Base Amount'].sum()` (pandas sum of an empty
series is 0). -/
def kpi_total (sub : List Record) : Int := sumAmounts sub

/-- Third KPI, `filtered_df['Base Amount'].mean()`; pandas mean of an empty
series is `NaN` (the "no data" sentinel), embedded as `none`. -/
def kpi_avg (sub : List Record) : Option ℚ :=
  if sub.length = 0 then none
  else some ((kpi_total sub : ℚ) / (sub.length : ℚ))

/-- Lexicographic comparison of character lists by code point — Python's
string ordering, which is what pandas uses when sorting group keys. -/
def charsLe : List Char → List Char → Bool
  | [], _ => true
  | _ :: _, [] => false
  | a :: as, b :: bs =>
    if a.toNat < b.toNat then true
    else if b.toNat < a.toNat then false
    else charsLe as bs

/-- Python's `<=` on strings: lexicographic by code point. -/
def strLe (a b : String) : Bool := charsLe a.data b.data

theorem charsLe_total : ∀ as bs : List Char, charsLe as bs = true ∨ charsLe bs as = true
  | [], _ => Or.inl rfl
  | _ :: _, [] => Or.inr rfl
  | a :: as, b :: bs => by
    simp only [charsLe]
    rcases Nat.lt_trichotomy a.toNat b.toNat with h | h | h
    · simp [h]
    · simp only [h, Nat.lt_irrefl, if_neg, if_false]
      simpa using charsLe_total as bs
    · simp [h, Nat.not_lt_of_lt h]

theorem charsLe_trans : ∀ as bs cs : List Char,
    charsLe as bs = true → charsLe bs cs = true → charsLe as cs = true
  | [], _, _, _, _ => rfl
  | _ :: _, [], _, h, _ => by simp [charsLe] at h
  | _ :: _, _ :: _, [], _, h => by simp [charsLe] at h
  | a :: as, b :: bs, c :: cs, h₁, h₂ => by
    simp only [charsLe] at h₁ h₂ ⊢
    split_ifs at h₁ h₂ ⊢ <;> first
      | rfl
      | omega
      | exact charsLe_trans as bs cs h₁ h₂

theorem charsLe_antisymm : ∀ as bs : List Char,
    charsLe as bs = true → charsLe bs as = true → as = bs
  | [], [], _, _ => rfl
  | [], _ :: _, _, h => by simp [charsLe] at h
  | _ :: _, [], h, _ => by simp [charsLe] at h
  | a :: as, b :: bs, h₁, h₂ => by
    simp only [charsLe] at h₁ h₂
    split_ifs at h₁ h₂ with hab hba
    · omega
    · have heq : a = b :=
        Char.eq_of_val_eq (UInt32.eq_of_toBitVec_eq (BitVec.eq_of_toNat_eq (by
          have ha : a.toNat = a.val.toBitVec.toNat := rfl
          have hb : b.toNat = b.val.toBitVec.toNat := rfl
          omega)))
      rw [heq, charsLe_antisymm as bs h₁ h₂]

instance : IsTotal String (fun a b => strLe a b = true) :=
  ⟨fun a b => charsLe_total a.data b.data⟩

instance : IsTrans String (fun a b => strLe a b = true) :=
  ⟨fun a b c => charsLe_trans a.data b.data c.data⟩

instance : IsAntisymm String (fun a b => strLe a b = true) :=
  ⟨fun a b h₁ h₂ => by
    have h := charsLe_antisymm a.data b.data h₁ h₂
    cases a
    cases b
    exact congrArg String.mk h⟩

/-- Ascending sort of the distinct values of a key column, as pandas
`pivot_table` / `groupby` do to group keys. -/
def sortedDedup (l : List String) : List String :=
  List.insertionSort (fun a b => strLe a b = true) l.dedup

/-- A two-dimensional pivot table: row index, column labels, and the
aggregated cell value (`aggfunc='sum'`, `fill_value=0`). -/
structure PivotTable where
  index : List String
  columns : List String
  cell : String → String → Int

/-- Embedding of `pd.pivot_table(filtered_df, index='Account Code',
columns='Month', values='Base Amount', aggfunc='sum', fill_value=0)`. -/
def pivot_table (sub : List Record) : PivotTable :=
  { index := sortedDedup (sub.map Record.accountCode)
    columns := sortedDedup (sub.map Record.monthLabel)
    cell := fun c m =>
      sumAmounts (sub.filter (fun r => r.accountCode == c && r.monthLabel == m)) }

/-- Embedding of `pivot.reindex(columns=selected_months, fill_value=0)`:
the column list
becomes exactly the given list, in the given order; columns not previously
present read as 0. -/
def reindex_columns (p : PivotTable) (cols : List String) : PivotTable :=
  { index := p.index
    columns := cols
    cell := fun c m => if p.columns.contains m then p.cell c m else 0 }

/-- The displayed pivot: pivot table of the filtered data, reindexed to the
selected months (lines 101–111 of `calculate.py`). -/
def pivot (df : List Record) (selected_year : Int)
    (selected_codes selected_months : List String) : PivotTable :=
  reindex_columns (pivot_table (filtered_df df selected_year selected_codes selected_months))
    selected_months

/-- The year subset restricted to the selected account codes (the data the
`total_pivot` aggregation runs over: month filter ignored). -/
def year_codes_df (df : List Record) (selected_year : Int)
    (selected_codes : List String) : List Record :=
  (df_year df selected_year).filter (fun r => selected_codes.contains r.accountCode)

/-- Row index of `total_pivot = pd.pivot_table(df_year[...isin(selected_codes)],
index='Account Code', values='Base Amount', aggfunc='sum', fill_value=0)`. -/
def total_pivot_index (df : List Record) (selected_year : Int)
    (selected_codes : List String) : List String :=
  sortedDedup ((year_codes_df df selected_year selected_codes).map Record.accountCode)

/-- Value of `total_pivot` at an account code: sum of `Base Amount` over the
year subset restricted to selected codes, for that code. -/
def total_pivot_value (df : List Record) (selected_year : Int)
    (selected_codes : List String) (c : String) : Int :=
  sumAmounts ((year_codes_df df selected_year selected_codes).filter
    (fun r => r.accountCode == c))

/-- Embedding of `pivot['Total'] = total_pivot`: index-aligned assignment
on the pivot's row index; labels absent
from `total_pivot`'s index would get a missing value (`none`). -/
def total_column (df : List Record) (selected_year : Int)
    (selected_codes : List String) (c : String) : Option Int :=
  if (total_pivot_index df selected_year selected_codes).contains c then
    some (total_pivot_value df selected_year selected_codes c)
  else none

/-- The table as displayed by `st.dataframe`: one tuple per row of the
pivot's index — the account code, the cells for the month columns in
order, and the Total column. -/
def pivot_display (df : List Record) (selected_year : Int)
    (selected_codes selected_months : List String) :
    List (String × List Int × Option Int) :=
  (pivot df selected_year selected_codes selected_months).index.map (fun c =>
    (c,
     (pivot df selected_year selected_codes selected_months).columns.map
       (fun m => (pivot df selected_year selected_codes selected_months).cell c m),
     total_column df selected_year selected_codes c))

/-- Embedding of `month_map = dict(zip(df_year['Month'],
df_year['Month_Num']))`: a
Python dict built from pairs, so a later pair for the same label overwrites
an earlier one — lookup returns the `Month_Num` of the last row of `df_year`
bearing the label, `none` when the label does not occur. -/
def month_map (dfy : List Record) (l : String) : Option Nat :=
  (dfy.reverse.find? (fun r => r.monthLabel == l)).map Record.monthNum

/-- Embedding of `sorted_months = sorted(month_options, key=lambda m:
month_map[m])`:
the distinct month labels of `df_year`, ordered by month number. Reused as
the spec-side "reorder to calendar order" operation on an arbitrary label
list (the sort key of a label is its one-based month number). -/
def calendar_sort (dfy : List Record) (ls : List String) : List String :=
  List.insertionSort
    (fun a b => (month_map dfy a).getD 0 ≤ (month_map dfy b).getD 0) ls

/-- Embedding of `monthly_totals` (lines 128–130): group the filtered rows
by `Month`
with summed `Base Amount` (pandas groupby sorts the keys ascending), attach
`Month_Num` via `month_map`, and sort by it. The sort keys are distinct, so
pandas' unstable `sort_values` is deterministic and agrees with this stable
sort. -/
def monthly_totals (sub dfy : List Record) : List (String × Int) :=
  List.insertionSort
    (fun p q : String × Int => (month_map dfy p.1).getD 0 ≤ (month_map dfy q.1).getD 0)
    ((sortedDedup (sub.map Record.monthLabel)).map
      (fun l => (l, sumAmounts (sub.filter (fun r => r.monthLabel == l)))))

/-- Embedding of the pie-chart aggregation `code_totals` (line 148): per
account code summed base amounts, keys in pandas' ascending group order. -/
def code_totals (sub : List Record) : List (String × Int) :=
  (sortedDedup (sub.map Record.accountCode)).map
    (fun c => (c, sumAmounts (sub.filter (fun r => r.accountCode == c))))

/-- One visible element emitted by a dashboard run, in script order. Chart
elements carry the data handed to the charting call; `envDiagnostics`
stands for the `st.write`/`st.code` block with the Python version, the
`pip list` output (or the error from running it) and the "proceeding
despite the error" note. -/
inductive StOutput where
  | plotlySuccess : StOutput
  | failedImport : StOutput
  | envDiagnostics : StOutput
  | metricsOut : Nat → Int → Option ℚ → StOutput
  | pivotOut : List (String × List Int × Option Int) → StOutput
  | barChart : List (String × Int) → StOutput
  | barWarning : StOutput
  | pieChart : List (String × Int) → StOutput
  | pieWarning : StOutput
  deriving DecidableEq, Repr

/-- One full top-to-bottom run of the script after an upload:
`plotly_ok` is whether the charting library imported (the
`ModuleNotFoundError` handler shows diagnostics and continues instead of
stopping); each chart call is wrapped in `try ... except NameError` that
degrades to a warning. -/
def run_dashboard (plotly_ok : Bool) (raw : List RawRow) (selected_year : Int)
    (selected_codes selected_months : List String) : List StOutput :=
  let df := load raw
  let sub := filtered_df df selected_year selected_codes selected_months
  (if plotly_ok then [StOutput.plotlySuccess]
   else [StOutput.failedImport, StOutput.envDiagnostics])
  ++ [StOutput.metricsOut (kpi_count sub) (kpi_total sub) (kpi_avg sub)]
  ++ [StOutput.pivotOut (pivot_display df selected_year selected_codes selected_months)]
  ++ [if plotly_ok then StOutput.barChart (monthly_totals sub (df_year df selected_year))
      else StOutput.barWarning]
  ++ [if plotly_ok then StOutput.pieChart (code_totals sub)
      else StOutput.pieWarning]

/-- Concrete dataset from the spec's worked scenario:
Jan 2024 A100 50, Feb 2024 A100 30, Jan 2024 B200 20 — plus a Feb-only
account C300 used to exercise month filtering. -/
def demo_df : List Record :=
  [⟨⟨2024, 0⟩, "A100", 50⟩,
   ⟨⟨2024, 1⟩, "A100", 30⟩,
   ⟨⟨2024, 0⟩, "B200", 20⟩,
   ⟨⟨2024, 1⟩, "C300", 40⟩]

/-! ## Basic lemmas about the filter stage -/

theorem mem_df_year {df : List Record} {y : Int} {r : Record} :
    r ∈ df_year df y ↔ r ∈ df ∧ r.year = y := by
  simp [df_year, List.mem_filter]

theorem mem_filtered_df {df : List Record} {y : Int} {codes months : List String}
    {r : Record} :
    r ∈ filtered_df df y codes months
      ↔ r ∈ df ∧ r.year = y ∧ r.accountCode ∈ codes ∧ r.monthLabel ∈ months := by
  simp [filtered_df, List.mem_filter, mem_df_year, and_assoc]

theorem filtered_df_empty_selection (df : List Record) (y : Int)
    (codes months : List String) (h : codes = [] ∨ months = []) :
    filtered_df df y codes months = [] := by
  rw [List.eq_nil_iff_forall_not_mem]
  intro r hr
  rcases mem_filtered_df.mp hr with ⟨-, -, hc, hm⟩
  rcases h with h | h
  · rw [h] at hc; exact (List.not_mem_nil _) hc
  · rw [h] at hm; exact (List.not_mem_nil _) hm

/-- C4: the filter stage is a pure function returning exactly the records
matching the selected year, an account code among the selected codes and a
month label among the selected months; an empty code or month selection
yields the empty subset rather than an error. -/
theorem filtered_df_spec (df : List Record) (y : Int) (codes months : List String) :
    (∀ r, r ∈ filtered_df df y codes months
        ↔ r ∈ df ∧ r.year = y ∧ r.accountCode ∈ codes ∧ r.monthLabel ∈ months)
    ∧ (codes = [] ∨ months = [] → filtered_df df y codes months = []) := by
  exact ⟨fun r => mem_filtered_df, filtered_df_empty_selection df y codes months⟩

/-- C4 witness: on the spec's demo data, the Jan A100 record is in the
filtered subset (and satisfies the membership characterization), and an
empty account-code selection gives the empty subset. -/
theorem filtered_df_spec_witness :
    (⟨⟨2024, 0⟩, "A100", 50⟩ : Record) ∈ filtered_df demo_df 2024 ["A100"] ["Jan"]
    ∧ filtered_df demo_df 2024 [] ["Jan", "Feb"] = [] :=
  ⟨((filtered_df_spec demo_df 2024 ["A100"] ["Jan"]).1 _).mpr (by decide),
   (filtered_df_spec demo_df 2024 [] ["Jan", "Feb"]).2 (Or.inl rfl)⟩

/-- C6: the filter stage's output is a subset of its input, and running the
filter again with the same year, account codes and months on its own output
returns that output unchanged. -/
theorem filtered_df_subset_idempotent (df : List Record) (y : Int)
    (codes months : List String) :
    filtered_df df y codes months ⊆ df
    ∧ filtered_df (filtered_df df y codes months) y codes months
        = filtered_df df y codes months := by
  constructor
  · intro r hr
    exact (mem_filtered_df.mp hr).1
  · have h1 : df_year (filtered_df df y codes months) y = filtered_df df y codes months := by
      rw [df_year, List.filter_eq_self]
      intro r hr
      simpa using (mem_filtered_df.mp hr).2.1
    rw [filtered_df, h1, List.filter_eq_self]
    intro r hr
    rcases mem_filtered_df.mp hr with ⟨-, -, hc, hm⟩
    simp [hc, hm]

/-- C6 witness: the subset and idempotence facts at the demo input. -/
theorem filtered_df_subset_idempotent_witness :
    filtered_df demo_df 2024 ["A100"] ["Jan"] ⊆ demo_df
    ∧ filtered_df (filtered_df demo_df 2024 ["A100"] ["Jan"]) 2024 ["A100"] ["Jan"]
        = filtered_df demo_df 2024 ["A100"] ["Jan"] :=
  filtered_df_subset_idempotent demo_df 2024 ["A100"] ["Jan"]

/-- C5: the summary metrics report a count equal to the number of records
of the subset and a total equal to the sum of its base amounts; the average
is their quotient for a non-empty subset and the `none` sentinel for an
empty one. -/
theorem summary_metrics_spec (sub : List Record) :
    kpi_count sub = sub.length
    ∧ kpi_total sub = (sub.map Record.baseAmount).sum
    ∧ (sub.length ≠ 0 →
        kpi_avg sub = some ((kpi_total sub : ℚ) / (kpi_count sub : ℚ)))
    ∧ (sub.length = 0 → kpi_avg sub = none) := by
  refine ⟨rfl, rfl, fun h => ?_, fun h => ?_⟩
  · rw [kpi_avg, if_neg h]; rfl
  · rw [kpi_avg, if_pos h]

/-- C5 witness: on the spec's demo scenario (3 records filtered), count is
3, total is 100 and the average is 100/3. -/
theorem summary_metrics_spec_witness :
    kpi_count (filtered_df demo_df 2024 ["A100", "B200"] ["Jan", "Feb"]) = 3
    ∧ kpi_total (filtered_df demo_df 2024 ["A100", "B200"] ["Jan", "Feb"]) = 100
    ∧ kpi_avg (filtered_df demo_df 2024 ["A100", "B200"] ["Jan", "Feb"])
        = some ((100 : ℚ) / 3) := by
  have h := summary_metrics_spec (filtered_df demo_df 2024 ["A100", "B200"] ["Jan", "Feb"])
  refine ⟨by decide, by decide, ?_⟩
  rw [h.2.2.1 (by decide),
    show kpi_total (filtered_df demo_df 2024 ["A100", "B200"] ["Jan", "Feb"]) = 100 from by decide,
    show kpi_count (filtered_df demo_df 2024 ["A100", "B200"] ["Jan", "Feb"]) = 3 from by decide]
  norm_num

/-- C3: whenever the filtered subset is empty the KPIs are still produced:
the count and the total are zero and the average is the "no data" sentinel
(`none`, the embedding of pandas' `NaN`) rather than a division error; in
particular selecting zero account codes empties the subset. -/
theorem kpis_empty_subset (df : List Record) (y : Int) (codes months : List String) :
    (filtered_df df y codes months = [] →
        kpi_count (filtered_df df y codes months) = 0
        ∧ kpi_total (filtered_df df y codes months) = 0
        ∧ kpi_avg (filtered_df df y codes months) = none)
    ∧ filtered_df df y [] months = [] := by
  constructor
  · intro h
    rw [h]
    exact ⟨rfl, rfl, rfl⟩
  · exact filtered_df_empty_selection df y [] months (Or.inl rfl)

/-- C3 witness: selecting zero account codes on the demo data empties the
subset and yields count 0, total 0 and the `none` average. -/
theorem kpis_empty_subset_witness :
    filtered_df demo_df 2024 [] ["Jan", "Feb"] = []
    ∧ kpi_count (filtered_df demo_df 2024 [] ["Jan", "Feb"]) = 0
    ∧ kpi_total (filtered_df demo_df 2024 [] ["Jan", "Feb"]) = 0
    ∧ kpi_avg (filtered_df demo_df 2024 [] ["Jan", "Feb"]) = none := by
  have he : filtered_df demo_df 2024 [] ["Jan", "Feb"] = [] := by decide
  exact ⟨he, (kpis_empty_subset demo_df 2024 [] ["Jan", "Feb"]).1 he⟩

/-- C1 (code bug): with months selected in the order `["Feb","Jan"]` (both
present in the data, so both selectable), the displayed pivot's columns are
`["Feb","Jan"]` — `reindex(columns=selected_months)` keeps the selection
order — while the calendar reordering the claim requires (computed by the
code's own `sorted_months` key, line 79) is `["Jan","Feb"]`. -/
theorem pivot_columns_selection_order :
    (pivot demo_df 2024 ["A100", "B200"] ["Feb", "Jan"]).columns = ["Feb", "Jan"]
    ∧ calendar_sort (df_year demo_df 2024) ["Feb", "Jan"] = ["Jan", "Feb"]
    ∧ (pivot demo_df 2024 ["A100", "B200"] ["Feb", "Jan"]).columns
        ≠ calendar_sort (df_year demo_df 2024) ["Feb", "Jan"] := by
  refine ⟨rfl, by decide, ?_⟩
  intro h
  rw [show (pivot demo_df 2024 ["A100", "B200"] ["Feb", "Jan"]).columns
      = ["Feb", "Jan"] from rfl] at h
  rw [show calendar_sort (df_year demo_df 2024) ["Feb", "Jan"]
      = ["Jan", "Feb"] from by decide] at h
  exact absurd h (by decide)

/-! ## The pivot table's rows and its Total column -/

theorem mem_sortedDedup {l : List String} {a : String} :
    a ∈ sortedDedup l ↔ a ∈ l := by
  simp [sortedDedup, List.mem_insertionSort, List.mem_dedup]

theorem mem_pivot_index {df : List Record} {y : Int} {codes months : List String}
    {c : String} :
    c ∈ (pivot df y codes months).index
      ↔ ∃ r ∈ filtered_df df y codes months, r.accountCode = c := by
  simp [pivot, reindex_columns, pivot_table, mem_sortedDedup, List.mem_map]

/-- C2: for every account code appearing as a row of the displayed pivot,
the Total column holds the sum of that account's base amounts over the
whole selected year — the month filter is ignored while the year and
account-code filters still apply — and an account code absent from the
year subset totals to 0. -/
theorem total_column_spec (df : List Record) (y : Int) (codes months : List String) :
    (∀ c ∈ (pivot df y codes months).index,
        total_column df y codes c
          = some (sumAmounts ((df_year df y).filter (fun r => r.accountCode == c))))
    ∧ (∀ c, (∀ r ∈ year_codes_df df y codes, r.accountCode ≠ c) →
        total_pivot_value df y codes c = 0) := by
  constructor
  · intro c hc
    obtain ⟨r, hr, hrc⟩ := mem_pivot_index.mp hc
    have hmem := mem_filtered_df.mp hr
    have hcodes : c ∈ codes := hrc ▸ hmem.2.2.1
    have hry : r ∈ df_year df y := mem_df_year.mpr ⟨hmem.1, hmem.2.1⟩
    have hyc : r ∈ year_codes_df df y codes := by
      rw [year_codes_df, List.mem_filter]
      exact ⟨hry, by simpa using hmem.2.2.1⟩
    have hidx : (total_pivot_index df y codes).contains c = true := by
      rw [List.elem_iff, total_pivot_index, mem_sortedDedup, List.mem_map]
      exact ⟨r, hyc, hrc⟩
    rw [total_column, if_pos hidx]
    have hfil : (year_codes_df df y codes).filter (fun r => r.accountCode == c)
        = (df_year df y).filter (fun r => r.accountCode == c) := by
      rw [year_codes_df, List.filter_filter]
      refine List.filter_congr (fun a _ => ?_)
      by_cases hac : a.accountCode = c
      · simp [hac, hcodes]
      · simp [hac]
    rw [total_pivot_value, hfil]
  · intro c h
    rw [total_pivot_value, List.filter_eq_nil_iff.mpr (fun r hr => by simpa using h r hr)]
    rfl

/-- C2 witness: on the demo data with codes A100 and B200 and only January
selected, A100's Total is the January-plus-February sum 80 even though
February is filtered out of the columns, and the never-occurring code Z999
totals to 0. -/
theorem total_column_spec_witness :
    total_column demo_df 2024 ["A100", "B200"] "A100"
      = some (sumAmounts ((df_year demo_df 2024).filter (fun r => r.accountCode == "A100")))
    ∧ total_column demo_df 2024 ["A100", "B200"] "A100" = some 80
    ∧ total_pivot_value demo_df 2024 ["A100", "B200"] "Z999" = 0 := by
  refine ⟨(total_column_spec demo_df 2024 ["A100", "B200"] ["Jan"]).1 "A100" ?_,
    by decide,
    (total_column_spec demo_df 2024 ["A100", "B200"] ["Jan"]).2 "Z999" (by decide)⟩
  rw [mem_pivot_index]
  exact ⟨⟨⟨2024, 0⟩, "A100", 50⟩, by decide, rfl⟩

/-- C10: the rows of the displayed pivot are exactly the distinct account
codes of the month-filtered subset; a selected account code all of whose
records in the selected year fall in unselected months has no row, and no
tuple for it occurs in the rendered table, so its year-wide Total is never
displayed. -/
theorem pivot_rows_spec (df : List Record) (y : Int) (codes months : List String) :
    (∀ c, c ∈ (pivot df y codes months).index
        ↔ ∃ r ∈ filtered_df df y codes months, r.accountCode = c)
    ∧ (∀ c, c ∈ codes →
        (∀ r ∈ df_year df y, r.accountCode = c → r.monthLabel ∉ months) →
        c ∉ (pivot df y codes months).index)
    ∧ (∀ c, c ∉ (pivot df y codes months).index →
        ∀ cells tot, (c, cells, tot) ∉ pivot_display df y codes months) := by
  refine ⟨fun c => mem_pivot_index, fun c hc h hidx => ?_, fun c hidx cells tot hmem => ?_⟩
  · obtain ⟨r, hr, hrc⟩ := mem_pivot_index.mp hidx
    have hmem := mem_filtered_df.mp hr
    exact h r (mem_df_year.mpr ⟨hmem.1, hmem.2.1⟩) hrc hmem.2.2.2
  · rw [pivot_display, List.mem_map] at hmem
    obtain ⟨c', hc', heq⟩ := hmem
    rw [Prod.mk.injEq] at heq
    exact hidx (heq.1 ▸ hc')

/-- C10 witness: on the demo data with year 2024, codes A100/B200/C300 and
only January selected, C300 (whose sole 2024 record is in February) has no
pivot row and its would-be rendered tuple is absent from the display. -/
theorem pivot_rows_spec_witness :
    "C300" ∉ (pivot demo_df 2024 ["A100", "B200", "C300"] ["Jan"]).index
    ∧ ("C300", [0], some 40)
        ∉ pivot_display demo_df 2024 ["A100", "B200", "C300"] ["Jan"] := by
  have h := pivot_rows_spec demo_df 2024 ["A100", "B200", "C300"] ["Jan"]
  have hidx := h.2.1 "C300" (by decide) (by decide)
  exact ⟨hidx, h.2.2 "C300" hidx [0] (some 40)⟩

/-! ## Loader: silent dropping of rows with null required fields -/

theorem mk_record_isSome_of_complete {rr : RawRow} (h : raw_complete rr = true) :
    (mk_record rr).isSome := by
  rcases rr with ⟨d, c, a⟩
  rw [raw_complete] at h
  simp only [Bool.and_eq_true, Option.isSome_iff_exists] at h
  obtain ⟨⟨⟨d', hd⟩, ⟨c', hc⟩⟩, ⟨a', ha⟩⟩ := h
  subst hd; subst hc; subst ha
  rfl

theorem filterMap_length_of_isSome {α β : Type} (f : α → Option β) :
    ∀ l : List α, (∀ x ∈ l, (f x).isSome) → (l.filterMap f).length = l.length
  | [], _ => rfl
  | a :: l, h => by
    obtain ⟨b, hb⟩ := Option.isSome_iff_exists.mp (h a (List.mem_cons_self a l))
    rw [List.filterMap_cons, hb]
    simp only [List.length_cons]
    rw [filterMap_length_of_isSome f l (fun x hx => h x (List.mem_cons_of_mem a hx))]

/-- C7: a raw row with a null `Transaction Date`, `Account Code` or
`Base Amount` is silently excluded by the loader — loading with it present
gives exactly the result of loading without it, with no error value — every
row surviving `dropna` has all three required fields non-null, and no
further rows are lost after `dropna` (one record per retained row). -/
theorem load_drops_null_rows (l₁ l₂ : List RawRow) (bad : RawRow)
    (h : raw_complete bad = false) :
    load (l₁ ++ bad :: l₂) = load (l₁ ++ l₂)
    ∧ (∀ rr ∈ dropna (l₁ ++ bad :: l₂), raw_complete rr = true)
    ∧ (load (l₁ ++ l₂)).length = (dropna (l₁ ++ l₂)).length := by
  refine ⟨?_, fun rr hrr => (List.mem_filter.mp hrr).2, ?_⟩
  · rw [load, load, dropna, dropna, List.filter_append, List.filter_append,
      List.filter_cons_of_neg (by simp [h])]
  · exact filterMap_length_of_isSome mk_record _
      (fun rr hrr => mk_record_isSome_of_complete (List.mem_filter.mp hrr).2)

/-- C7 witness: inserting a row with a null account code into two complete
demo rows changes nothing downstream, the surviving rows are complete, and
both complete rows load. -/
theorem load_drops_null_rows_witness :
    raw_complete ⟨some ⟨2024, 0⟩, none, some 10⟩ = false
    ∧ load [⟨some ⟨2024, 0⟩, some "A100", some 50⟩,
            (⟨some ⟨2024, 0⟩, none, some 10⟩ : RawRow),
            ⟨some ⟨2024, 1⟩, some "B200", some 20⟩]
        = load [⟨some ⟨2024, 0⟩, some "A100", some 50⟩,
                ⟨some ⟨2024, 1⟩, some "B200", some 20⟩]
    ∧ load [⟨some ⟨2024, 0⟩, some "A100", some 50⟩,
            ⟨some ⟨2024, 1⟩, some "B200", some 20⟩]
        = [⟨⟨2024, 0⟩, "A100", 50⟩, ⟨⟨2024, 1⟩, "B200", 20⟩] :=
  ⟨rfl,
   (load_drops_null_rows [⟨some ⟨2024, 0⟩, some "A100", some 50⟩]
      [⟨some ⟨2024, 1⟩, some "B200", some 20⟩]
      ⟨some ⟨2024, 0⟩, none, some 10⟩ rfl).1,
   rfl⟩

/-! ## Degraded run when the charting library fails to import -/

/-- C9: when the charting import fails, the run still completes: the
environment diagnostics are shown, each of the two charts is replaced by a
non-fatal warning (no chart element is emitted), and the metrics and the
pivot table are exactly the ones a run with charts available produces. -/
theorem run_dashboard_degrades (raw : List RawRow) (y : Int)
    (codes months : List String) :
    StOutput.envDiagnostics ∈ run_dashboard false raw y codes months
    ∧ StOutput.barWarning ∈ run_dashboard false raw y codes months
    ∧ StOutput.pieWarning ∈ run_dashboard false raw y codes months
    ∧ (∀ d, StOutput.barChart d ∉ run_dashboard false raw y codes months)
    ∧ (∀ d, StOutput.pieChart d ∉ run_dashboard false raw y codes months)
    ∧ (∀ c t a, StOutput.metricsOut c t a ∈ run_dashboard false raw y codes months
        ↔ StOutput.metricsOut c t a ∈ run_dashboard true raw y codes months)
    ∧ (∀ p, StOutput.pivotOut p ∈ run_dashboard false raw y codes months
        ↔ StOutput.pivotOut p ∈ run_dashboard true raw y codes months) := by
  refine ⟨?_, ?_, ?_, fun d => ?_, fun d => ?_, fun c t a => ?_, fun p => ?_⟩ <;>
    simp [run_dashboard]

/-- C9 witness: on the demo upload with the import failed, diagnostics and
both chart warnings appear while no chart does. -/
theorem run_dashboard_degrades_witness :
    StOutput.envDiagnostics
      ∈ run_dashboard false [⟨some ⟨2024, 0⟩, some "A100", some 50⟩] 2024 ["A100"] ["Jan"]
    ∧ StOutput.barWarning
      ∈ run_dashboard false [⟨some ⟨2024, 0⟩, some "A100", some 50⟩] 2024 ["A100"] ["Jan"]
    ∧ ∀ d, StOutput.barChart d
      ∉ run_dashboard false [⟨some ⟨2024, 0⟩, some "A100", some 50⟩] 2024 ["A100"] ["Jan"] := by
  have h := run_dashboard_degrades [⟨some ⟨2024, 0⟩, some "A100", some 50⟩] 2024 ["A100"] ["Jan"]
  exact ⟨h.1, h.2.1, h.2.2.2.1⟩

/-! ## Monthly totals: grouping, calendar ordering, order-independence -/

theorem labelNum_monthAbbr (m : Fin 12) : labelNum (monthAbbr m) = m.val + 1 := by
  revert m
  decide

theorem labelNum_monthLabel (r : Record) : labelNum r.monthLabel = r.monthNum :=
  labelNum_monthAbbr r.transactionDate.month

theorem month_map_eq_of_mem {dfy : List Record} {l : String}
    (h : ∃ r ∈ dfy, r.monthLabel = l) : month_map dfy l = some (labelNum l) := by
  rw [month_map]
  cases hf : dfy.reverse.find? (fun r => r.monthLabel == l) with
  | none =>
    exfalso
    obtain ⟨r, hr, hrl⟩ := h
    exact List.find?_eq_none.mp hf r (List.mem_reverse.mpr hr) (by simp [hrl])
  | some r₀ =>
    have hp := List.find?_some hf
    have hl : r₀.monthLabel = l := by simpa using hp
    have hnum : labelNum l = r₀.monthNum := by rw [← hl, labelNum_monthLabel]
    simp [hnum]

theorem sortedDedup_perm_eq {l₁ l₂ : List String} (h : l₁.Perm l₂) :
    sortedDedup l₁ = sortedDedup l₂ :=
  List.eq_of_perm_of_sorted
    ((List.perm_insertionSort _ _).trans (h.dedup.trans (List.perm_insertionSort _ _).symm))
    (List.sorted_insertionSort _ _) (List.sorted_insertionSort _ _)

theorem sumAmounts_perm {s t : List Record} (h : s.Perm t) :
    sumAmounts s = sumAmounts t :=
  (h.map Record.baseAmount).sum_eq

theorem monthly_totals_perm {s t : List Record} (dfy : List Record) (h : s.Perm t) :
    monthly_totals s dfy = monthly_totals t dfy := by
  rw [monthly_totals, monthly_totals, sortedDedup_perm_eq (h.map Record.monthLabel)]
  congr 1
  refine List.map_congr_left (fun l _ => ?_)
  rw [sumAmounts_perm (h.filter (fun r => r.monthLabel == l))]

theorem mem_monthly_totals {sub dfy : List Record} {p : String × Int} :
    p ∈ monthly_totals sub dfy
      ↔ (∃ r ∈ sub, r.monthLabel = p.1)
        ∧ p.2 = sumAmounts (sub.filter (fun r => r.monthLabel == p.1)) := by
  rw [monthly_totals, List.mem_insertionSort, List.mem_map]
  constructor
  · rintro ⟨l, hl, rfl⟩
    obtain ⟨r, hr, hrl⟩ := List.mem_map.mp (mem_sortedDedup.mp hl)
    exact ⟨⟨r, hr, hrl⟩, rfl⟩
  · rintro ⟨⟨r, hr, hrl⟩, hval⟩
    refine ⟨p.1, mem_sortedDedup.mpr (List.mem_map.mpr ⟨r, hr, hrl⟩), ?_⟩
    exact Prod.ext rfl hval.symm

/-- C8: the monthly totals are the per-month-label sums of the filtered
subset's base amounts — one entry per label occurring in the subset, ordered
by ascending month number — and they are unchanged by any reordering of the
subset's records. -/
theorem monthly_totals_spec (df : List Record) (y : Int) (codes months : List String) :
    (∀ p ∈ monthly_totals (filtered_df df y codes months) (df_year df y),
        p.2 = sumAmounts ((filtered_df df y codes months).filter
          (fun r => r.monthLabel == p.1)))
    ∧ (∀ l, (∃ p ∈ monthly_totals (filtered_df df y codes months) (df_year df y), p.1 = l)
        ↔ ∃ r ∈ filtered_df df y codes months, r.monthLabel = l)
    ∧ ((monthly_totals (filtered_df df y codes months) (df_year df y)).map
        (fun p => labelNum p.1)).Sorted (· ≤ ·)
    ∧ (∀ sub', (filtered_df df y codes months).Perm sub' →
        monthly_totals sub' (df_year df y)
          = monthly_totals (filtered_df df y codes months) (df_year df y)) := by
  refine ⟨fun p hp => (mem_monthly_totals.mp hp).2, fun l => ?_, ?_, fun sub' h =>
    monthly_totals_perm (df_year df y) h.symm⟩
  · constructor
    · rintro ⟨p, hp, rfl⟩
      exact (mem_monthly_totals.mp hp).1
    · intro h
      exact ⟨(l, sumAmounts ((filtered_df df y codes months).filter
          (fun r => r.monthLabel == l))), mem_monthly_totals.mpr ⟨h, rfl⟩, rfl⟩
  · have hkey : ∀ p : String × Int,
        p ∈ monthly_totals (filtered_df df y codes months) (df_year df y) →
        (month_map (df_year df y) p.1).getD 0 = labelNum p.1 := by
      intro p hp
      obtain ⟨r, hr, hrl⟩ := (mem_monthly_totals.mp hp).1
      have hrdfy : r ∈ df_year df y := (List.mem_filter.mp hr).1
      rw [month_map_eq_of_mem ⟨r, hrdfy, hrl⟩]
      rfl
    haveI h₁ : IsTotal (String × Int)
        (fun p q => (month_map (df_year df y) p.1).getD 0
          ≤ (month_map (df_year df y) q.1).getD 0) :=
      ⟨fun a b => Nat.le_total _ _⟩
    haveI h₂ : IsTrans (String × Int)
        (fun p q => (month_map (df_year df y) p.1).getD 0
          ≤ (month_map (df_year df y) q.1).getD 0) :=
      ⟨fun a b c hab hbc => Nat.le_trans hab hbc⟩
    have hs : (monthly_totals (filtered_df df y codes months) (df_year df y)).Pairwise
        (fun p q => (month_map (df_year df y) p.1).getD 0
          ≤ (month_map (df_year df y) q.1).getD 0) :=
      List.sorted_insertionSort _ _
    rw [List.Sorted, List.pairwise_map]
    exact hs.imp_of_mem (fun ha hb hab => by
      rwa [hkey _ ha, hkey _ hb] at hab)

/-- C8 witness: on the demo data over 2024 with all codes and months
Jan/Feb selected, the monthly totals are Jan 70 then Feb 70 (calendar
order, not the alphabetical Feb-first order), and reversing the filtered
records leaves the result unchanged. -/
theorem monthly_totals_spec_witness :
    monthly_totals (filtered_df demo_df 2024 ["A100", "B200", "C300"] ["Jan", "Feb"])
        (df_year demo_df 2024) = [("Jan", 70), ("Feb", 70)]
    ∧ (filtered_df demo_df 2024 ["A100", "B200", "C300"] ["Jan", "Feb"]).Perm
        [⟨⟨2024, 1⟩, "C300", 40⟩, ⟨⟨2024, 0⟩, "B200", 20⟩,
         ⟨⟨2024, 1⟩, "A100", 30⟩, ⟨⟨2024, 0⟩, "A100", 50⟩]
    ∧ monthly_totals
        [⟨⟨2024, 1⟩, "C300", 40⟩, ⟨⟨2024, 0⟩, "B200", 20⟩,
         ⟨⟨2024, 1⟩, "A100", 30⟩, ⟨⟨2024, 0⟩, "A100", 50⟩]
        (df_year demo_df 2024)
      = monthly_totals (filtered_df demo_df 2024 ["A100", "B200", "C300"] ["Jan", "Feb"])
          (df_year demo_df 2024) := by
  have hperm : (filtered_df demo_df 2024 ["A100", "B200", "C300"] ["Jan", "Feb"]).Perm
      [⟨⟨2024, 1⟩, "C300", 40⟩, ⟨⟨2024, 0⟩, "B200", 20⟩,
       ⟨⟨2024, 1⟩, "A100", 30⟩, ⟨⟨2024, 0⟩, "A100", 50⟩] := by decide
  exact ⟨by decide, hperm,
    (monthly_totals_spec demo_df 2024 ["A100", "B200", "C300"] ["Jan", "Feb"]).2.2.2 _ hperm⟩

end ExcelCalc
